import Mathlib

/-!
Verification development for the ApolloPyClient repository
(src/apollopyclient.py, class ApolloPyClient).

The client state and its operations are shallowly embedded below, translated
line by line from the Python source.  JSON values are modelled by the
inductive `JVal`; Python dicts are association lists with in-place update
semantics (assignment to an existing key keeps its position, a new key is
appended).  The byte-level JSON codec (json.loads / json.dumps) is abstracted
to the JSON-value level: the on-disk snapshot file is a `SnapshotFile`
(missing, unreadable/undecodable bytes, readable text json.loads rejects, or
text parsing to a JSON value), and what the guarded part of the constructor
sees after a successful read is a `FileContent`.  The logging sink itself is
a one-way event emitter outside the core, but the argument expressions of
the logging calls are client code and are modelled where they can raise: the
final line of update_config formats requests.status_code, an attribute the
requests module does not have, so every update_config call that reaches that
line raises AttributeError — the model's `ok` flag records it (and is
therefore false on every path).  HTTP transport is a black box: an
interaction is summarised by an `HttpResult` (a network failure, or a status
code with an optional JSON body — `none` standing for a body that is not
valid JSON, which makes response.json() raise).  Exceptions are modelled by
outcome flags: each operation returns the state exactly as the Python
attributes stand when the operation returns or when the uncaught exception
leaves it, together with a flag saying whether it raised.
-/

/-- JSON values, as produced by Python's json.loads: objects are modelled by
association lists in insertion order. -/
inductive JVal where
  | jnull : JVal
  | jbool : Bool → JVal
  | jnum : Int → JVal
  | jstr : String → JVal
  | jarr : List JVal → JVal
  | jobj : List (String × JVal) → JVal


namespace JVal

/-- Python dict lookup d.get(k) / d[k] membership: first binding of the key. -/
def dlookup (kvs : List (String × JVal)) (k : String) : Option JVal :=
  match kvs with
  | [] => none
  | (k0, v0) :: rest => if k0 = k then some v0 else dlookup rest k

/-- Python dict assignment d[k] = v: updates the first binding of k in place,
or appends a new binding at the end. -/
def dinsert (kvs : List (String × JVal)) (k : String) (v : JVal) :
    List (String × JVal) :=
  match kvs with
  | [] => [(k, v)]
  | (k0, v0) :: rest =>
      if k0 = k then (k0, v) :: rest else (k0, v0) :: dinsert rest k v

/-- Python subscripting j[k] with a string key: succeeds only on a dict that
holds the key; a missing key raises KeyError, a non-dict raises TypeError. -/
def sub (j : JVal) (k : String) : Option JVal :=
  match j with
  | jobj kvs => dlookup kvs k
  | _ => none

/-- Python truthiness of a JSON value (bool(v)). -/
def truthy : JVal → Bool
  | jnull => false
  | jbool b => b
  | jnum n => n != 0
  | jstr s => s != ""
  | jarr xs => !xs.isEmpty
  | jobj kvs => !kvs.isEmpty

/-- Python str(v) as used by "{}".format(v).  Only the string case is ever
exercised by the protocol (releaseKey is a JSON string); the other renderings
follow Python's repr conventions closely enough for the URL model. -/
def pyStr : JVal → String
  | jnull => "None"
  | jbool b => if b then "True" else "False"
  | jnum n => toString n
  | jstr s => s
  | jarr _ => "[...]"
  | jobj _ => "{...}"

/-- Python "%d" % v: succeeds on numbers (and bools); any other operand
raises TypeError.  Used only as a success guard for building the
notification URL. -/
def pyFormatD : JVal → Option String
  | jnum n => some (toString n)
  | jbool b => some (if b then "1" else "0")
  | _ => none

end JVal

open JVal

/-- What the guarded try-block of the constructor sees once the unguarded
read phase (os.path.exists, open, f.read — lines 68–70) has not raised: no
file on disk, text that json.loads rejects, or a parsed JSON value.  The
read phase itself can also raise — see `SnapshotFile` and `construct`. -/
inductive FileContent where
  | absent : FileContent
  | corrupt : FileContent
  | json : JVal → FileContent


/-- One HTTP interaction, as seen by the client: a transport failure
(requests.get raised), or a response with a status code and an optional JSON
body (`none` = body is not valid JSON, so response.json() raises). -/
inductive HttpResult where
  | netErr : HttpResult
  | resp : Int → Option JVal → HttpResult


/-- The mutable attributes of an ApolloPyClient instance.  `config_url` and
`notification_url` are `none` before connect() has set them (reading them
then raises AttributeError). -/
structure ClientState where
  sign : Bool
  releaseKey : Option JVal
  filename : Option String
  namespaceName : Option String
  notificationId : JVal
  configurations : JVal
  config_url : Option String
  notification_url : Option String


/-- Python truthiness of the optional filename string (if filename:). -/
def optStrTruthy : Option String → Bool
  | none => false
  | some s => s != ""

/-- Python truthiness of self.releaseKey (None or a JSON value). -/
def optJTruthy : Option JVal → Bool
  | none => false
  | some v => v.truthy

/-- ApolloPyClient.__init__(filename): all attributes take their defaults;
when a truthy filename is given and the file exists, its bytes are read and,
inside a try block, self.configurations is set to the parsed JSON and then
self.releaseKey to configurations["releaseKey"]; every exception of the try
block is caught and only logged.  Note the order: the map assignment has
already happened when the ["releaseKey"] subscript raises. -/
def init (filename : Option String) (file : FileContent) : ClientState :=
  let base : ClientState :=
    { sign := true, releaseKey := none, filename := filename,
      namespaceName := none, notificationId := jnum (-1),
      configurations := jobj [], config_url := none,
      notification_url := none }
  if optStrTruthy filename then
    match file with
    | .absent => base
    | .corrupt => base
    | .json v =>
        match v.sub "releaseKey" with
        | some rk => { base with configurations := v, releaseKey := some rk }
        | none => { base with configurations := v }
  else base

/-- The on-disk snapshot file as the unguarded read phase of __init__
(lines 68–70) finds it: missing (os.path.exists false), present but
unreadable or not valid UTF-8 (open/f.read raises OSError or
UnicodeDecodeError), readable text that json.loads rejects, or text that
parses to a JSON value. -/
inductive SnapshotFile where
  | missing : SnapshotFile
  | undecodable : SnapshotFile
  | textNonJson : SnapshotFile
  | textJson : JVal → SnapshotFile

/-- The full constructor ApolloPyClient(filename): the read phase of
lines 68–70 sits outside the try block, so a file that cannot be read or
decoded raises out of __init__ and no instance is obtained (`Except.error`);
every other snapshot outcome is handed to the guarded phase modelled by
`init`.  When the filename is falsy the file is never touched, so even an
undecodable file is harmless. -/
def construct (filename : Option String) (file : SnapshotFile) :
    Except Unit ClientState :=
  if optStrTruthy filename then
    match file with
    | .missing => .ok (init filename .absent)
    | .undecodable => .error ()
    | .textNonJson => .ok (init filename .corrupt)
    | .textJson v => .ok (init filename (.json v))
  else .ok (init filename .absent)

/-- ApolloPyClient.get(key): self.configurations.get(key).  When the
configurations attribute is not a dict (possible after loading a non-object
JSON snapshot) the .get attribute access raises, modelled by `Except.error`;
on a dict it returns the value or Python None (`Option`). -/
def ApolloPyClient.get (s : ClientState) (key : String) : Except Unit (Option JVal) :=
  match s.configurations with
  | jobj kvs => .ok (dlookup kvs key)
  | _ => .error ()

/-- The URL built at the top of update_config: the config URL, with
?releaseKey=<key> appended exactly when self.releaseKey is truthy. -/
def buildFetchUrl (cu : String) (rk : Option JVal) : String :=
  if optJTruthy rk then
    match rk with
    | some v => cu ++ "?releaseKey=" ++ v.pyStr
    | none => cu
  else cu

/-- Result of one update_config call: the state as left behind, the URL that
was requested (none if config_url was unset), the snapshot content written to
the file this call (none = no write), and whether the call returned normally
(ok = false: an exception propagated to the caller).  Because the final
logging line of the source evaluates requests.status_code — an attribute the
requests module does not have — every call that survives its earlier failure
points still raises AttributeError there, so ok is false on every path; the
field is kept so that this never-returns fact is statable. -/
structure FetchOutcome where
  state : ClientState
  url : Option String
  written : Option JVal
  ok : Bool


/-- ApolloPyClient.update_config(), given the HTTP interaction `r`:
  url = self.config_url (+ ?releaseKey=… if self.releaseKey is truthy);
  r = requests.get(url);
  if status != 304:
    self.configurations = r.json()["configurations"]   (line 119)
    self.releaseKey = r.json()["releaseKey"]           (line 120)
    self.configurations["releaseKey"] = self.releaseKey (line 121)
    if self.filename: write json.dumps(self.configurations) to the file.
  logging.info(... .format(requests.status_code))        (line 125)
Any exception on these lines propagates with the attribute mutations already
made kept in place: in particular line 119 has already replaced the map when
line 120 raises KeyError, and lines 119–120 have both fired when line 121
raises TypeError because the body's configurations is not a dict.  Line 125
is reached on the 304 path and on the fully applied path, and always raises
AttributeError, because the requests module has no status_code attribute —
only Response instances do; the mutations and the file write of lines
119–124 have stuck by then, so those paths leave ok = false with the update
applied. -/
def update_config (s : ClientState) (r : HttpResult) : FetchOutcome :=
  match s.config_url with
  | none => ⟨s, none, none, false⟩
  | some cu =>
    let url := buildFetchUrl cu s.releaseKey
    match r with
    | .netErr => ⟨s, some url, none, false⟩
    | .resp status body =>
      if status = 304 then ⟨s, some url, none, false⟩
      else
        match body with
        | none => ⟨s, some url, none, false⟩
        | some j =>
          match j.sub "configurations" with
          | none => ⟨s, some url, none, false⟩
          | some confs =>
            match j.sub "releaseKey" with
            | none => ⟨{ s with configurations := confs }, some url, none, false⟩
            | some rk =>
              match confs with
              | jobj kvs =>
                let s2 := { s with
                  releaseKey := some rk,
                  configurations := jobj (dinsert kvs "releaseKey" rk) }
                if optStrTruthy s.filename then
                  ⟨s2, some url, some s2.configurations, false⟩
                else
                  ⟨s2, some url, none, false⟩
              | _ =>
                ⟨{ s with configurations := confs, releaseKey := some rk },
                  some url, none, false⟩

/-- Python str.strip("/"): remove leading and trailing slashes. -/
def stripSlash (s : String) : String :=
  String.mk (((s.toList.dropWhile (· = '/')).reverse.dropWhile (· = '/')).reverse)

/-- ApolloPyClient.connect(server_url, appId, clusterName, namespaceName):
stores the namespace, builds the two endpoint URLs, and performs one
synchronous update_config whose every exception is caught and only logged. -/
def connect (s : ClientState) (server_url appId clusterName namespaceName : String)
    (r : HttpResult) : ClientState :=
  let s1 := { s with
    namespaceName := some namespaceName,
    config_url := some (stripSlash server_url ++ "/configs/" ++ appId ++ "/"
      ++ clusterName ++ "/" ++ namespaceName),
    notification_url := some (stripSlash server_url
      ++ "/notifications/v2?appId=" ++ appId ++ "&cluster=" ++ clusterName
      ++ "&notifications=") }
  (update_config s1 r).state

/-- ApolloPyClient.close(): sets the shared running flag to False. -/
def close (s : ClientState) : ClientState := { s with sign := false }

/-- Result of one body iteration of a background loop: the state left behind,
how many times update_config was invoked, whether the iteration ended in a
client-side sleep, and any snapshot written. -/
structure LoopOutcome where
  state : ClientState
  fetchCalls : Nat
  slept : Bool
  written : Option JVal

/-- One body iteration of ApolloPyClient.schedule_update (inside while
self.sign): update_config() with every exception caught and logged, then an
unconditional time.sleep(interval). -/
def schedule_iter (s : ClientState) (cr : HttpResult) : LoopOutcome :=
  let o := update_config s cr
  ⟨o.state, 1, true, o.written⟩

/-- One body iteration of ApolloPyClient.perceptual_update (inside while
self.sign), given the notification interaction `nr` and — should
update_config be reached — the config interaction `cr`:
  url = self.notification_url + quote(json with namespaceName, notificationId)
  r = requests.get(url)
  if status != 304:
    self.notificationId = r.json()[0]["notificationId"]
    self.update_config()
Any exception in the body is caught and answered with time.sleep(60); the
"%d" formatting of notificationId and the subscripts r.json()[0] and
[0]["notificationId"] are the raise points before the assignment, and an
exception out of update_config still counts that one invocation.  Since
update_config never returns normally (its final logging line raises), the
slept flag !o.ok is true on every iteration that invokes it — the loop
sleeps 60 even after a successfully applied update. -/
def perceptual_iter (s : ClientState) (nr : HttpResult) (cr : HttpResult) :
    LoopOutcome :=
  match s.notification_url with
  | none => ⟨s, 0, true, none⟩
  | some _ =>
    match pyFormatD s.notificationId with
    | none => ⟨s, 0, true, none⟩
    | some _ =>
      match nr with
      | .netErr => ⟨s, 0, true, none⟩
      | .resp status body =>
        if status = 304 then ⟨s, 0, false, none⟩
        else
          match body with
          | none => ⟨s, 0, true, none⟩
          | some j =>
            match j with
            | jarr (first :: _) =>
              match first.sub "notificationId" with
              | none => ⟨s, 0, true, none⟩
              | some nid =>
                let s1 := { s with notificationId := nid }
                let o := update_config s1 cr
                ⟨o.state, 1, !o.ok, o.written⟩
            | _ => ⟨s, 0, true, none⟩

/-- The schedule_update loop run against a finite stream of HTTP
interactions: self.sign is checked before every iteration, and each
iteration consumes one interaction.  Returns the final state and the total
number of update_config invocations. -/
def schedule_run (s : ClientState) (crs : List HttpResult) :
    ClientState × Nat :=
  match crs with
  | [] => (s, 0)
  | cr :: rest =>
    if s.sign then
      let o := schedule_iter s cr
      let (s2, n) := schedule_run o.state rest
      (s2, n + 1)
    else (s, 0)

/-- The perceptual_update loop run against a finite stream of
notification/config interaction pairs: self.sign is checked before every
iteration.  Returns the final state and the total number of update_config
invocations. -/
def perceptual_run (s : ClientState) (rs : List (HttpResult × HttpResult)) :
    ClientState × Nat :=
  match rs with
  | [] => (s, 0)
  | (nr, cr) :: rest =>
    if s.sign then
      let o := perceptual_iter s nr cr
      let (s2, n) := perceptual_run o.state rest
      (s2, n + o.fetchCalls)
    else (s, 0)

/-- The snapshot serialization performed on a successful modified fetch
(update_config lines 119–124): the configurations dict with the releaseKey
injected under the reserved key, handed to json.dumps. -/
def dump (m : List (String × JVal)) (k : JVal) : FileContent :=
  .json (jobj (dinsert m "releaseKey" k))

/-- The snapshot parsing performed at construction (the try block of
__init__): the map and ReleaseKey the parsed bytes yield. -/
def load (file : FileContent) : JVal × Option JVal :=
  let s := init (some "apollo.json") file
  (s.configurations, s.releaseKey)

/-- A client constructed with no snapshot file, connected to http://srv for
appId app1 with the default cluster and namespace, the initial synchronous
fetch having failed on transport (its exception is swallowed by connect). -/
def sConn : ClientState :=
  connect (init none .absent) "http://srv" "app1" "default" "application"
    .netErr

/-- The config endpoint URL connect computes for sConn. -/
def cfgUrl : String := "http://srv/configs/app1/default/application"

/-- Like sConn, but constructed with a snapshot file name (the file absent on
disk), so successful fetches write the snapshot. -/
def sConnFile : ClientState :=
  connect (init (some "apollo.json") .absent) "http://srv" "app1" "default"
    "application" .netErr

/-- A 200-style body carrying both expected fields, used against a non-200
status. -/
def bodyFull : JVal :=
  jobj [("configurations", jobj [("x", jstr "1")]), ("releaseKey", jstr "r9")]

/-- The body of the C3 scenario: {configurations: {x: "1"}, releaseKey: "r2"}. -/
def body200 : JVal :=
  jobj [("configurations", jobj [("x", jstr "1")]), ("releaseKey", jstr "r2")]

/-- The client after sConn receives HTTP 200 with body200. -/
def sAfter : ClientState :=
  (update_config sConn (.resp 200 (some body200))).state

/-- A client whose snapshot file held an empty-string releaseKey: a
ReleaseKey is held but it is falsy. -/
def sEmptyRK : ClientState :=
  init (some "apollo.json") (.json (jobj [("releaseKey", jstr "")]))

/-- A client whose snapshot file held a JSON object without a releaseKey
entry. -/
def sNoRK : ClientState :=
  init (some "apollo.json") (.json (jobj [("x", jstr "1")]))

/-- Notification body [{namespaceName: "application", notificationId: 5}]. -/
def notif5 : JVal :=
  jarr [jobj [("namespaceName", jstr "application"), ("notificationId", jnum 5)]]

/-- Notification body [{namespaceName: "application", notificationId: 3}]. -/
def notif3 : JVal :=
  jarr [jobj [("namespaceName", jstr "application"), ("notificationId", jnum 3)]]

/-- sConn after one watcher iteration that saw notificationId 5 (the fetch it
triggers fails on transport). -/
def sW1 : ClientState :=
  (perceptual_iter sConn (.resp 200 (some notif5)) .netErr).state

/-- sW1 after a second watcher iteration that saw notificationId 3. -/
def sW2 : ClientState :=
  (perceptual_iter sW1 (.resp 200 (some notif3)) .netErr).state

/-- A client whose snapshot file held a JSON array. -/
def sArr : ClientState :=
  init (some "apollo.json") (.json (jarr [jnum 1, jnum 2]))

/-- A client whose snapshot file held a bare JSON string. -/
def sStr : ClientState :=
  init (some "apollo.json") (.json (jstr "abc"))

/-! Helper lemmas about the dict operations and update_config. -/

theorem dlookup_dinsert_self (m : List (String × JVal)) (k : String)
    (v : JVal) : dlookup (dinsert m k v) k = some v := by
  induction m with
  | nil => simp [dinsert, dlookup]
  | cons hd tl ih =>
      obtain ⟨k0, v0⟩ := hd
      by_cases h : k0 = k <;> simp [dinsert, dlookup, h, ih]

theorem dlookup_dinsert_ne (m : List (String × JVal)) (k k' : String)
    (v : JVal) (h : k' ≠ k) : dlookup (dinsert m k v) k' = dlookup m k' := by
  have h2 : ¬ k = k' := fun hh => h hh.symm
  induction m with
  | nil => simp [dinsert, dlookup, h2]
  | cons hd tl ih =>
      obtain ⟨k0, v0⟩ := hd
      by_cases h0 : k0 = k
      · subst h0
        simp [dinsert, dlookup, h2]
      · simp only [dinsert, if_neg h0, dlookup]
        by_cases h1 : k0 = k' <;> simp [h1, ih]

theorem update_config_notificationId (s : ClientState) (r : HttpResult) :
    (update_config s r).state.notificationId = s.notificationId := by
  unfold update_config
  repeat' (first | rfl | split)

theorem update_config_url (s : ClientState) (r : HttpResult) (cu : String)
    (hcu : s.config_url = some cu) :
    (update_config s r).url = some (buildFetchUrl cu s.releaseKey) := by
  unfold update_config
  simp only [hcu]
  repeat' (first | rfl | split)

theorem update_config_never_ok (s : ClientState) (r : HttpResult) :
    (update_config s r).ok = false := by
  unfold update_config
  repeat' (first | rfl | split)

/-- C2: a 304 response leaves the in-memory configuration map and the held
ReleaseKey exactly as they were, and nothing is written to the persisted
file. -/
theorem c2_304_frame (s : ClientState) (body : Option JVal) :
    (update_config s (.resp 304 body)).state.configurations
        = s.configurations
    ∧ (update_config s (.resp 304 body)).state.releaseKey = s.releaseKey
    ∧ (update_config s (.resp 304 body)).written = none := by
  unfold update_config
  cases s.config_url <;> simp

/-- C9: close sets the shared running flag to false; with the flag false
each background loop, run against any stream of further HTTP interactions,
terminates without executing a single further body iteration, so the state —
in particular the configuration map and the ReleaseKey — is never touched
again and update_config is invoked zero more times by either loop. -/
theorem c9_close_stops_loops (s : ClientState) (crs : List HttpResult)
    (rs : List (HttpResult × HttpResult)) :
    (close s).sign = false
    ∧ schedule_run (close s) crs = (close s, 0)
    ∧ perceptual_run (close s) rs = (close s, 0) := by
  refine ⟨rfl, ?_, ?_⟩
  · cases crs <;> simp [schedule_run, close]
  · cases rs <;> simp [perceptual_run, close]

/-- C10: construction from a snapshot whose JSON top level is an array or a
bare string succeeds — the client is built with the running flag set and no
ReleaseKey — but that non-dict value is installed as the configuration
store, and every subsequent get raises instead of returning absent. -/
theorem c10_nonobject_snapshot (key : String) :
    sArr.configurations = jarr [jnum 1, jnum 2]
    ∧ sArr.releaseKey = none
    ∧ sArr.sign = true
    ∧ ApolloPyClient.get sArr key = .error ()
    ∧ sStr.configurations = jstr "abc"
    ∧ ApolloPyClient.get sStr key = .error () :=
  ⟨rfl, rfl, rfl, rfl, rfl, rfl⟩

/-- C1 (counterexample): an HTTP 500 response whose body carries both
expected fields does not leave the cache unchanged — update_config replaces
the configuration map (empty before the call) and the ReleaseKey (None
before the call) even though the status is neither 200 nor 304, so updates
are not applied only on HTTP 200 and the unchanged-on-error part of the
claim fails. -/
theorem c1_counterexample :
    sConn.configurations = jobj []
    ∧ sConn.releaseKey = none
    ∧ (update_config sConn (.resp 500 (some bodyFull))).state.configurations
        = jobj [("x", jstr "1"), ("releaseKey", jstr "r9")]
    ∧ (update_config sConn (.resp 500 (some bodyFull))).state.releaseKey
        = some (jstr "r9") :=
  ⟨rfl, rfl, rfl, rfl⟩

/-- C1 (amended): update_config never returns normally — every call that
survives its own failure points still raises at the final logging line,
which evaluates requests.status_code, an attribute the requests module does
not have.  Apart from that, it distinguishes only 304 from everything else:
a non-304 response whose JSON body carries a configurations object and a
releaseKey is applied before the raise — the map replacement, the ReleaseKey
update and, when a snapshot file is configured, the file write all stick —
whatever its status code; a transport failure, a non-JSON body, or a body
without a configurations entry raises earlier with the map and the
ReleaseKey unchanged; a body carrying configurations but no releaseKey
raises with the ReleaseKey unchanged but with the configuration map already
replaced by the body's configurations value. -/
theorem c1_amended (s : ClientState) (cu : String)
    (hcu : s.config_url = some cu) (status : Int) (hst : status ≠ 304)
    (j : JVal) :
    (∀ (s2 : ClientState) (r2 : HttpResult), (update_config s2 r2).ok = false)
    ∧ (∀ kvs rk, j.sub "configurations" = some (jobj kvs) →
      j.sub "releaseKey" = some rk →
      (update_config s (.resp status (some j))).state.configurations
          = jobj (dinsert kvs "releaseKey" rk)
      ∧ (update_config s (.resp status (some j))).state.releaseKey = some rk
      ∧ (optStrTruthy s.filename = true →
          (update_config s (.resp status (some j))).written
            = some (jobj (dinsert kvs "releaseKey" rk))))
    ∧ (j.sub "configurations" = none →
      (update_config s (.resp status (some j))).state = s)
    ∧ ((update_config s (.resp status none)).state = s)
    ∧ ((update_config s .netErr).state = s)
    ∧ (∀ confs, j.sub "configurations" = some confs →
      j.sub "releaseKey" = none →
      (update_config s (.resp status (some j))).state.configurations
          = confs
      ∧ (update_config s (.resp status (some j))).state.releaseKey
          = s.releaseKey
      ∧ (update_config s (.resp status (some j))).written = none) := by
  refine ⟨update_config_never_ok, ?_, ?_, ?_, ?_, ?_⟩
  · intro kvs rk hc hr
    refine ⟨?_, ?_, ?_⟩ <;>
      simp only [update_config, hcu, if_neg hst, hc, hr]
    · split <;> rfl
    · split <;> rfl
    · intro hf
      simp only [hf, if_true]
  · intro hc
    simp only [update_config, hcu, if_neg hst, hc]
  · simp only [update_config, hcu, if_neg hst]
  · simp only [update_config, hcu]
  · intro confs hc hr
    simp only [update_config, hcu, if_neg hst, hc, hr]
    exact ⟨by trivial, by trivial, by trivial⟩

/-- C1 (witness): the amended C1 instantiated at connected clients and an
HTTP 500 response — the call raises on every path, yet with both fields
present the update and the snapshot write are applied, while a non-JSON
body leaves the state unchanged. -/
theorem c1_witness :
    (update_config sConnFile (.resp 500 (some bodyFull))).ok = false
    ∧ (update_config sConnFile (.resp 500 (some bodyFull))).state.releaseKey
        = some (jstr "r9")
    ∧ (update_config sConnFile (.resp 500 (some bodyFull))).written
        = some (jobj [("x", jstr "1"), ("releaseKey", jstr "r9")])
    ∧ (update_config sConn (.resp 500 none)).state = sConn := by
  have h := c1_amended sConnFile cfgUrl rfl 500 (by decide) bodyFull
  have h2 := c1_amended sConn cfgUrl rfl 500 (by decide) bodyFull
  have happ := h.2.1 [("x", jstr "1")] (jstr "r9") rfl rfl
  exact ⟨h.1 sConnFile (.resp 500 (some bodyFull)), happ.2.1,
    happ.2.2 rfl, h2.2.2.2.1⟩

/-- C3 (counterexample): after loading a snapshot holding an empty-string
releaseKey, a ReleaseKey is held (the attribute is not None), yet the fetch
URL omits the ?releaseKey= parameter, because the source tests the key for
Python truthiness rather than for presence. -/
theorem c3_counterexample :
    sEmptyRK.releaseKey = some (jstr "")
    ∧ buildFetchUrl cfgUrl sEmptyRK.releaseKey = cfgUrl
    ∧ cfgUrl ≠ cfgUrl ++ "?releaseKey=" ++ (jstr "").pyStr :=
  ⟨rfl, rfl, by decide⟩

/-- C3 (amended): in the claim's scenario, after a 200 response with body
{configurations: {x: "1"}, releaseKey: "r2"}, get "x" returns "1" and every
next fetch URL is the config URL with ?releaseKey=r2 appended, while a
client holding no ReleaseKey requests the bare config URL; in general the
URL carries the ?releaseKey= parameter exactly when the held ReleaseKey is
truthy (for strings: non-empty) — in particular the first-ever fetch, with
ReleaseKey None, omits it. -/
theorem c3_amended :
    ApolloPyClient.get sAfter "x" = .ok (some (jstr "1"))
    ∧ (∀ r : HttpResult, (update_config sAfter r).url
        = some (cfgUrl ++ "?releaseKey=r2"))
    ∧ (∀ r : HttpResult, (update_config sConn r).url = some cfgUrl)
    ∧ (∀ (cu : String) (rk : Option JVal), optJTruthy rk = false →
        buildFetchUrl cu rk = cu)
    ∧ (∀ (cu : String) (v : JVal), v.truthy = true →
        buildFetchUrl cu (some v) = cu ++ "?releaseKey=" ++ v.pyStr) := by
  refine ⟨rfl, ?_, ?_, ?_, ?_⟩
  · intro r
    rw [update_config_url sAfter r cfgUrl rfl]
    rfl
  · intro r
    rw [update_config_url sConn r cfgUrl rfl]
    rfl
  · intro cu rk hf
    simp [buildFetchUrl, hf]
  · intro cu v hv
    simp [buildFetchUrl, optJTruthy, hv]

/-- C3 (witness): the amended C3's general clauses instantiated at the
truthy ReleaseKey r2 and at the absent ReleaseKey. -/
theorem c3_witness :
    buildFetchUrl cfgUrl (some (jstr "r2"))
      = cfgUrl ++ "?releaseKey=" ++ (jstr "r2").pyStr
    ∧ buildFetchUrl cfgUrl none = cfgUrl := by
  have h := c3_amended
  exact ⟨h.2.2.2.2 cfgUrl (jstr "r2") rfl, h.2.2.2.1 cfgUrl none rfl⟩

/-- C4 (counterexample): after the 200 fetch of the C3 scenario, the held
ReleaseKey is exposed through get — get "releaseKey" returns r2 rather than
absent, because update_config stores the ReleaseKey inside the
configurations dict. -/
theorem c4_counterexample :
    ApolloPyClient.get sAfter "releaseKey" = .ok (some (jstr "r2"))
    ∧ ApolloPyClient.get sAfter "releaseKey" ≠ .ok none :=
  ⟨rfl,
    by simp [show ApolloPyClient.get sAfter "releaseKey" = .ok (some (jstr "r2")) from rfl]⟩

/-- C4 (amended): the ReleaseKey is not kept separate from the user-visible
keys — after every applied fetch the configurations dict maps "releaseKey"
to the held ReleaseKey, and get "releaseKey" returns that key, never
absent. -/
theorem c4_amended (s : ClientState) (cu : String)
    (hcu : s.config_url = some cu) (status : Int) (hst : status ≠ 304)
    (j : JVal) (kvs : List (String × JVal)) (rk : JVal)
    (hc : j.sub "configurations" = some (jobj kvs))
    (hr : j.sub "releaseKey" = some rk) :
    ApolloPyClient.get (update_config s (.resp status (some j))).state "releaseKey"
      = .ok (some rk)
    ∧ (update_config s (.resp status (some j))).state.releaseKey
      = some rk := by
  have hmain : (update_config s (.resp status (some j))).state.configurations
      = jobj (dinsert kvs "releaseKey" rk)
      ∧ (update_config s (.resp status (some j))).state.releaseKey
        = some rk := by
    simp only [update_config, hcu, if_neg hst, hc, hr]
    split <;> exact ⟨rfl, rfl⟩
  refine ⟨?_, hmain.2⟩
  unfold ApolloPyClient.get
  rw [hmain.1]
  simp [dlookup_dinsert_self]

/-- C4 (witness): the amended C4 at the connected client receiving the C3
scenario's 200 response. -/
theorem c4_witness :
    ApolloPyClient.get (update_config sConn (.resp 200 (some body200))).state "releaseKey"
      = .ok (some (jstr "r2")) :=
  (c4_amended sConn cfgUrl rfl 200 (by decide) body200 [("x", jstr "1")]
    (jstr "r2") rfl rfl).1

/-- C5 (counterexample): two failures of the claim.  A snapshot holding the
well-formed JSON object {"x": "1"} — malformed for the client, since it
lacks the expected releaseKey field — does not yield an empty map:
construction installs the parsed object as the configuration map before the
releaseKey lookup fails.  And a file whose bytes cannot be read or decoded
makes construction itself raise, because open/f.read sit outside the try
block, so construction does not succeed for every file content. -/
theorem c5_counterexample :
    sNoRK.configurations = jobj [("x", jstr "1")]
    ∧ sNoRK.configurations ≠ jobj []
    ∧ sNoRK.releaseKey = none
    ∧ construct (some "apollo.json") .undecodable = .error () :=
  ⟨rfl,
    by simp [show sNoRK.configurations = jobj [("x", jstr "1")] from rfl],
    rfl, rfl⟩

/-- C5 (amended): a missing file and readable text json.loads rejects are
tolerated — construction succeeds with the empty map and no ReleaseKey —
but a file whose bytes cannot be read or UTF-8-decoded raises out of the
constructor (the read of lines 69–70 is outside the try block), so
construction fails there whenever a snapshot filename is in use; a file
parsing to a JSON value without a releaseKey entry is tolerated too, but the
parsed value is installed as the configuration map as it stands — empty only
if the value itself is empty — with no ReleaseKey held. -/
theorem c5_amended (f : Option String) (v : JVal)
    (hv : v.sub "releaseKey" = none) :
    (construct f .missing = .ok (init f .absent)
      ∧ (init f .absent).configurations = jobj []
      ∧ (init f .absent).releaseKey = none
      ∧ (init f .absent).sign = true)
    ∧ (construct f .textNonJson = .ok (init f .corrupt)
      ∧ (init f .corrupt).configurations = jobj []
      ∧ (init f .corrupt).releaseKey = none
      ∧ (init f .corrupt).sign = true)
    ∧ (optStrTruthy f = true → construct f .undecodable = .error ())
    ∧ (construct f (.textJson v) = .ok (init f (.json v)))
    ∧ (optStrTruthy f = true →
        (init f (.json v)).configurations = v
        ∧ (init f (.json v)).releaseKey = none
        ∧ (init f (.json v)).sign = true) := by
  refine ⟨⟨?_, ?_⟩, ⟨?_, ?_⟩, ?_, ?_, ?_⟩
  · unfold construct
    split <;> rfl
  · unfold init
    split <;> exact ⟨rfl, rfl, rfl⟩
  · unfold construct
    split
    · rfl
    · next hf => unfold init; simp [hf]
  · unfold init
    split <;> exact ⟨rfl, rfl, rfl⟩
  · intro hf
    simp only [construct, hf, if_true]
  · unfold construct
    split
    · rfl
    · next hf => unfold init; simp [hf]
  · intro hf
    simp only [init, hf, if_true, hv]
    exact ⟨by trivial, by trivial, by trivial⟩

/-- C5 (witness): the amended C5 at a snapshot object lacking releaseKey, at
an undecodable file, and at an absent file. -/
theorem c5_witness :
    construct (some "apollo.json") (.textJson (jobj [("x", jstr "1")]))
      = .ok (init (some "apollo.json") (.json (jobj [("x", jstr "1")])))
    ∧ (init (some "apollo.json")
        (.json (jobj [("x", jstr "1")]))).configurations
      = jobj [("x", jstr "1")]
    ∧ construct (some "apollo.json") .undecodable = .error ()
    ∧ (init none .absent).configurations = jobj [] := by
  have h1 := c5_amended (some "apollo.json") (jobj [("x", jstr "1")]) rfl
  have h2 := c5_amended none (jobj []) rfl
  exact ⟨h1.2.2.2.1, (h1.2.2.2.2 rfl).1, h1.2.2.1 rfl, h2.1.2.1⟩

/-- C6 (counterexample): dumping the map {"x": "1"} with ReleaseKey "r1" and
loading it back does not reconstruct the original map — the loaded map
carries the extra entry "releaseKey" ↦ "r1" that dump injected. -/
theorem c6_counterexample :
    load (dump [("x", jstr "1")] (jstr "r1"))
      = (jobj [("x", jstr "1"), ("releaseKey", jstr "r1")],
          some (jstr "r1"))
    ∧ jobj [("x", jstr "1"), ("releaseKey", jstr "r1")]
        ≠ jobj [("x", jstr "1")] :=
  ⟨rfl, by simp⟩

/-- C6 (amended): the round-trip reconstructs the ReleaseKey exactly and the
map up to the reserved key: load (dump m k) yields ReleaseKey k and the map
m with "releaseKey" rebound to k, so every entry of m at a key other than
"releaseKey" round-trips unchanged and the loaded map's "releaseKey" entry
equals k. -/
theorem c6_amended (m : List (String × JVal)) (k : JVal) :
    (load (dump m k)).2 = some k
    ∧ (load (dump m k)).1 = jobj (dinsert m "releaseKey" k)
    ∧ JVal.sub (load (dump m k)).1 "releaseKey" = some k
    ∧ ∀ key, key ≠ "releaseKey" →
        JVal.sub (load (dump m k)).1 key = dlookup m key := by
  have hsub : JVal.sub (jobj (dinsert m "releaseKey" k)) "releaseKey"
      = some k := by
    simp [JVal.sub, dlookup_dinsert_self]
  have h1 : load (dump m k) = (jobj (dinsert m "releaseKey" k), some k) := by
    unfold load dump init
    simp [optStrTruthy, hsub]
  refine ⟨by rw [h1], by rw [h1], by rw [h1]; exact hsub, ?_⟩
  intro key hkey
  rw [h1]
  simp [JVal.sub, dlookup_dinsert_ne _ _ _ _ hkey]

/-- C6 (witness): the amended C6 at the map {"x": "1"} and ReleaseKey
"r1". -/
theorem c6_witness :
    (load (dump [("x", jstr "1")] (jstr "r1"))).2 = some (jstr "r1")
    ∧ JVal.sub (load (dump [("x", jstr "1")] (jstr "r1"))).1 "x"
        = some (jstr "1") := by
  have h := c6_amended [("x", jstr "1")] (jstr "r1")
  exact ⟨h.1, (h.2.2.2 "x" (by decide)).trans rfl⟩

/-- C7: when the watcher loop receives HTTP 200 with body
[{"namespaceName": "application", "notificationId": 5}], the NotificationId
becomes 5 and update_config is invoked exactly once as a result, whatever
that fetch then does; when it receives HTTP 304, the iteration calls
update_config zero times, performs no client-side sleep and changes nothing,
so the loop repeats immediately. -/
theorem c7_watcher (s : ClientState) (u : String)
    (hu : s.notification_url = some u) (fmt : String)
    (hfmt : pyFormatD s.notificationId = some fmt) (cr : HttpResult)
    (b : Option JVal) :
    ((perceptual_iter s (.resp 200 (some notif5)) cr).state.notificationId
        = jnum 5
      ∧ (perceptual_iter s (.resp 200 (some notif5)) cr).fetchCalls = 1)
    ∧ ((perceptual_iter s (.resp 304 b) cr).state = s
      ∧ (perceptual_iter s (.resp 304 b) cr).fetchCalls = 0
      ∧ (perceptual_iter s (.resp 304 b) cr).slept = false) := by
  constructor
  · simp only [perceptual_iter, hu, hfmt, notif5, JVal.sub, dlookup]
    norm_num
    exact ⟨update_config_notificationId _ cr, rfl⟩
  · simp only [perceptual_iter, hu, hfmt]
    norm_num

/-- C7 (witness): the C7 theorem at the connected client, whose notification
URL is set and whose NotificationId is the integer -1. -/
theorem c7_witness :
    (perceptual_iter sConn (.resp 200 (some notif5))
        .netErr).state.notificationId = jnum 5
    ∧ (perceptual_iter sConn (.resp 304 none) .netErr).slept = false := by
  have h := c7_watcher sConn
    "http://srv/notifications/v2?appId=app1&cluster=default&notifications="
    rfl "-1" rfl .netErr none
  exact ⟨h.1.1, h.2.2.2⟩

/-- C8 (counterexample): the watcher overwrites NotificationId with whatever
value the response carries, with no monotonicity guard — after a response
carrying notificationId 5, a later response carrying 3 drags the watermark
back down, so an updated value can be smaller than its predecessor. -/
theorem c8_counterexample :
    sW1.notificationId = jnum 5
    ∧ sW2.notificationId = jnum 3
    ∧ (3 : Int) < 5 :=
  ⟨rfl, rfl, by decide⟩

/-- C8 (amended): NotificationId is initialized to -1 at construction and is
modified only by the watcher's handling of non-304 notification responses —
update_config, connect and the schedule loop leave it unchanged — and the
watcher simply overwrites it with the response's notificationId value, which
may be smaller than the one held. -/
theorem c8_amended (f : Option String) (fc : FileContent) (s : ClientState)
    (r : HttpResult) (server appId cl ns : String) (u fmt : String)
    (hu : s.notification_url = some u)
    (hfmt : pyFormatD s.notificationId = some fmt) (status : Int)
    (hst : status ≠ 304) (first : JVal) (rest : List JVal) (nid : JVal)
    (hnid : first.sub "notificationId" = some nid) (cr : HttpResult) :
    (init f fc).notificationId = jnum (-1)
    ∧ (update_config s r).state.notificationId = s.notificationId
    ∧ (connect s server appId cl ns r).notificationId = s.notificationId
    ∧ (schedule_iter s r).state.notificationId = s.notificationId
    ∧ (perceptual_iter s (.resp status (some (jarr (first :: rest))))
        cr).state.notificationId = nid := by
  refine ⟨?_, update_config_notificationId s r, ?_, ?_, ?_⟩
  · unfold init
    repeat' (first | rfl | split)
  · unfold connect
    rw [update_config_notificationId]
  · unfold schedule_iter
    exact update_config_notificationId s r
  · simp only [perceptual_iter, hu, hfmt, if_neg hst, hnid]
    exact update_config_notificationId _ cr

/-- C8 (witness): the amended C8 at sW1 (which holds NotificationId 5)
receiving a response carrying notificationId 3. -/
theorem c8_witness :
    (init none .absent).notificationId = jnum (-1)
    ∧ (perceptual_iter sW1 (.resp 200 (some notif3))
        .netErr).state.notificationId = jnum 3 := by
  have h := c8_amended none .absent sW1 .netErr "http://srv" "app1"
    "default" "application"
    "http://srv/notifications/v2?appId=app1&cluster=default&notifications="
    "5" rfl rfl 200 (by decide)
    (jobj [("namespaceName", jstr "application"),
      ("notificationId", jnum 3)]) [] (jnum 3) rfl .netErr
  exact ⟨h.1, h.2.2.2.2⟩
